import Mathlib

/-!
Shallow embedding of the booking reservation engine of the
Ticket-Booking-System repository: the POST /api/bookings handler, the
PUT /api/bookings/:id/cancel handler, the admin booking-status route,
the admin showtime totalSeats update, and the booking-code generation
hook of the Booking model.  Dates are modelled as integer millisecond
timestamps (as in a JS Date); the JS toDateString calendar-day
comparison is modelled by flooring to the day index.
-/

namespace TicketBooking

/-- Milliseconds in one day. -/
def msPerDay : Int := 86400000

/-- Calendar-day index of a timestamp; models Date.toDateString equality:
two timestamps have the same toDateString exactly when they fall in the
same day. -/
def toDateString (d : Int) : Int := Int.fdiv d msPerDay

/-- Midnight of the day of a timestamp. -/
def dayStart (d : Int) : Int := Int.fdiv d msPerDay * msPerDay

/-- Split a character list at every occurrence of a separator, as the JS
split with a one-character separator does on a string. -/
def splitChars (sep : Char) : List Char → List (List Char)
  | [] => [[]]
  | x :: xs =>
    let r := splitChars sep xs
    if x = sep then [] :: r
    else (x :: r.headD []) :: r.tail

/-- Decimal value of a digit character. -/
def charDigit (c : Char) : Option Nat :=
  if c.isDigit then some (c.toNat - '0'.toNat) else none

/-- Decimal number denoted by a character list; none when empty or
containing a non-digit (where JS parseInt would give NaN). -/
def parseNat : List Char → Option Nat
  | [] => none
  | cs => cs.foldl (fun acc c =>
      match acc, charDigit c with
      | some n, some d => some (n * 10 + d)
      | _, _ => none) (some 0)

/-- Parse an HH:MM time label, as the split and parseInt in the cancel
handler do (well-formed labels; a non-numeric component defaults to 0). -/
def parseTime (t : String) : Int × Int :=
  match splitChars ':' t.toList with
  | h :: m :: _ => (((parseNat h).getD 0 : Nat), ((parseNat m).getD 0 : Nat))
  | [h] => (((parseNat h).getD 0 : Nat), 0)
  | [] => (0, 0)

/-- Absolute date-time of a showtime: the stored date with its time of day
replaced by the parsed time label, as setHours does in the cancel handler. -/
def showtimeDateTime (d : Int) (time : String) : Int :=
  dayStart d + (parseTime time).1 * 3600000 + (parseTime time).2 * 60000

/-- Booking status enumeration of the Booking schema. -/
inductive BStatus where
  | pending
  | confirmed
  | cancelled
  | completed
deriving DecidableEq, BEq, Repr

/-- A status that counts against seat inventory: the conflict scan keeps
bookings whose status is pending or confirmed. -/
def activeStatus (s : BStatus) : Bool := s == BStatus.pending || s == BStatus.confirmed

/-- Showtime subdocument of the Movie schema. -/
structure Showtime where
  sid : Nat
  date : Int
  time : String
  price : Int
  totalSeats : Int
  availableSeats : Int
  isActive : Bool
deriving DecidableEq, Repr

/-- Movie document, restricted to the fields the booking engine touches. -/
structure Movie where
  id : Nat
  showtimes : List Showtime
deriving DecidableEq, Repr

/-- Booking document of the Booking schema. -/
structure Booking where
  id : Nat
  user : Nat
  movie : Nat
  showtimeDate : Int
  showtimeTime : String
  seats : List String
  quantity : Nat
  totalAmount : Int
  status : BStatus
  paymentMethod : String
  notes : Option String
  bookingCode : String
  cancelledAt : Option Int
  cancelledBy : Option Nat
  cancellationReason : Option String
deriving DecidableEq, Repr

/-- The persistent store: the movies and bookings collections, plus a
counter supplying the identity of the next created booking. -/
structure DB where
  movies : List Movie
  bookings : List Booking
  nextBookingId : Nat
deriving DecidableEq, Repr

/-- Apply f to the first element satisfying p, leaving the rest unchanged:
this is how an in-place mutation of the document returned by find or
findById acts on the stored collection. -/
def updateFirst {α : Type} (p : α → Bool) (f : α → α) : List α → List α
  | [] => []
  | x :: xs => if p x then f x :: xs else x :: updateFirst p f xs

/-- Movie.findById. -/
def findMovie (db : DB) (movieId : Nat) : Option Movie :=
  db.movies.find? (fun m => m.id == movieId)

/-- The showtime predicate of the create-booking handler: the date matches
by calendar day (toDateString), the time label matches, and the showtime is
active. -/
def showtimeMatch (d : Int) (t : String) (st : Showtime) : Bool :=
  toDateString st.date == toDateString d && st.time == t && st.isActive

/-- The showtime predicate of the cancel handler when restoring seats:
calendar day and time label only (isActive is not consulted). -/
def cancelMatch (d : Int) (t : String) (st : Showtime) : Bool :=
  toDateString st.date == toDateString d && st.time == t

/-- The showtime lookup of the create-booking handler: first showtime
satisfying showtimeMatch. -/
def findShowtime (m : Movie) (d : Int) (t : String) : Option Showtime :=
  m.showtimes.find? (showtimeMatch d t)

/-- The conflict query of the create-booking handler: bookings of this movie
whose stored showtime date equals the requested date exactly, whose time
label matches, and whose status is pending or confirmed. -/
def conflictScan (db : DB) (movieId : Nat) (d : Int) (t : String) : List Booking :=
  db.bookings.filter (fun b =>
    b.movie == movieId && b.showtimeDate == d && b.showtimeTime == t &&
      activeStatus b.status)

/-- The booked set: union (as a list) of the seat lists of the bookings
returned by the conflict query. -/
def bookedSeatsFor (db : DB) (movieId : Nat) (d : Int) (t : String) : List String :=
  (conflictScan db movieId d t).flatMap Booking.seats

/-- Failure outcomes of the create-booking handler. -/
inductive CreateErr where
  | movieNotFound
  | showtimeNotFound
  | capacityExceeded
  | seatConflict (conflictingSeats : List String)
deriving DecidableEq, Repr

/-- POST /api/bookings after validation: resolve the movie, find the
showtime by calendar day and time label, check capacity against quantity,
scan for seat conflicts by exact stored date, then create the booking
(status pending, totalAmount = price * quantity) and decrement the
availableSeats of the matched showtime.  The booking code is the one the
pre-save hook settled on.  Failure branches return before any mutation,
so they carry the store back unchanged. -/
def createBooking (db : DB) (userId movieId : Nat) (showtimeDate : Int)
    (showtimeTime : String) (seats : List String) (quantity : Nat)
    (paymentMethod : String) (notes : Option String) (code : String) :
    Except CreateErr Booking × DB :=
  match findMovie db movieId with
  | none => (Except.error CreateErr.movieNotFound, db)
  | some movie =>
    match findShowtime movie showtimeDate showtimeTime with
    | none => (Except.error CreateErr.showtimeNotFound, db)
    | some showtime =>
      if showtime.availableSeats < (quantity : Int) then
        (Except.error CreateErr.capacityExceeded, db)
      else
        let bookedSeats := bookedSeatsFor db movieId showtimeDate showtimeTime
        let conflictingSeats := seats.filter (fun s => bookedSeats.contains s)
        if 0 < conflictingSeats.length then
          (Except.error (CreateErr.seatConflict conflictingSeats), db)
        else
          let totalAmount := showtime.price * (quantity : Int)
          let booking : Booking :=
            { id := db.nextBookingId
              user := userId
              movie := movieId
              showtimeDate := showtimeDate
              showtimeTime := showtimeTime
              seats := seats
              quantity := quantity
              totalAmount := totalAmount
              status := BStatus.pending
              paymentMethod := paymentMethod
              notes := notes
              bookingCode := code
              cancelledAt := none
              cancelledBy := none
              cancellationReason := none }
          (Except.ok booking,
            { movies := (updateFirst (fun m => m.id == movieId)
                (fun m => { m with showtimes := (updateFirst
                    (showtimeMatch showtimeDate showtimeTime)
                    (fun st => { st with
                      availableSeats := st.availableSeats - (quantity : Int) })
                    m.showtimes) })
                db.movies)
              bookings := db.bookings ++ [booking]
              nextBookingId := db.nextBookingId + 1 })

/-- Booking.findById. -/
def findBooking (db : DB) (bookingId : Nat) : Option Booking :=
  db.bookings.find? (fun b => b.id == bookingId)

/-- The showtime lookup of the cancel handler when restoring seats: first
showtime satisfying cancelMatch. -/
def findShowtimeForCancel (m : Movie) (d : Int) (t : String) : Option Showtime :=
  m.showtimes.find? (cancelMatch d t)

/-- Failure outcomes of the cancel handler. -/
inductive CancelErr where
  | bookingNotFound
  | notAuthorized
  | alreadyCancelled
  | cannotCancelCompleted
  | windowExpired
deriving DecidableEq, Repr

/-- PUT /api/bookings/:id/cancel: load the booking, authorize (owner or
admin role), reject terminal states, reject when the showtime starts in
less than 2 hours (the source divides the millisecond gap by 3600000 and
compares with 2; flooring makes that the same as comparing the gap with
7200000 ms), then mark the booking cancelled and add its quantity back to
the availableSeats of the first showtime of its movie matching the stored
date by calendar day and the stored time label.  When the movie or a
matching showtime is absent the restoration is a no-op while the booking
still becomes cancelled. -/
def cancelBooking (db : DB) (bookingId actorId : Nat) (role : String)
    (reason : Option String) (now : Int) : Except CancelErr Booking × DB :=
  match findBooking db bookingId with
  | none => (Except.error CancelErr.bookingNotFound, db)
  | some booking =>
    if ¬ (booking.user = actorId ∨ role = "admin") then
      (Except.error CancelErr.notAuthorized, db)
    else if booking.status = BStatus.cancelled then
      (Except.error CancelErr.alreadyCancelled, db)
    else if booking.status = BStatus.completed then
      (Except.error CancelErr.cannotCancelCompleted, db)
    else if showtimeDateTime booking.showtimeDate booking.showtimeTime - now <
        7200000 then
      (Except.error CancelErr.windowExpired, db)
    else
      let cancelled : Booking :=
        { booking with
          status := BStatus.cancelled
          cancelledAt := some now
          cancelledBy := some actorId
          cancellationReason := some (reason.getD "Cancelled by user") }
      (Except.ok cancelled,
        { db with
          bookings := (updateFirst (fun b => b.id == bookingId)
            (fun _ => cancelled) db.bookings)
          movies := (updateFirst (fun m => m.id == booking.movie)
            (fun m => { m with showtimes := (updateFirst
                (cancelMatch booking.showtimeDate booking.showtimeTime)
                (fun st => { st with
                  availableSeats := st.availableSeats + (booking.quantity : Int) })
                m.showtimes) })
            db.movies) })

/-- Failure outcome of the admin booking-status route. -/
inductive AdminStatusErr where
  | bookingNotFound
deriving DecidableEq, Repr

/-- PUT /api/admin/bookings/:id/status: set the status to any of the four
enumerated values, stamping the cancellation metadata when the new status
is cancelled.  No guard inspects the current status and no showtime seat
count is touched. -/
def adminSetBookingStatus (db : DB) (bookingId : Nat) (newStatus : BStatus)
    (reason : Option String) (actorId : Nat) (now : Int) :
    Except AdminStatusErr Booking × DB :=
  match findBooking db bookingId with
  | none => (Except.error AdminStatusErr.bookingNotFound, db)
  | some booking =>
    let updated : Booking :=
      if newStatus = BStatus.cancelled then
        { booking with
          status := newStatus
          cancelledAt := some now
          cancelledBy := some actorId
          cancellationReason := some (reason.getD "Cancelled by admin") }
      else { booking with status := newStatus }
    (Except.ok updated,
      { db with bookings := (updateFirst (fun b => b.id == bookingId)
          (fun _ => updated) db.bookings) })

/-- Failure outcomes of the admin showtime update. -/
inductive UpdateShowtimeErr where
  | movieNotFound
  | showtimeNotFound
deriving DecidableEq, Repr

/-- The totalSeats branch of the admin showtime update: preserve the number
of committed seats and clamp availableSeats at 0 from below. -/
def recomputeSeats (newTotalSeats : Int) (st : Showtime) : Showtime :=
  let bookedSeats := st.totalSeats - st.availableSeats
  { st with
    totalSeats := newTotalSeats
    availableSeats := max 0 (newTotalSeats - bookedSeats) }

/-- PUT /api/movies/:id/showtimes/:showtimeId restricted to a body updating
totalSeats: resolve movie and showtime (by subdocument identity) and apply
the recomputation. -/
def updateShowtimeTotalSeats (db : DB) (movieId stId : Nat)
    (newTotalSeats : Int) : Except UpdateShowtimeErr Showtime × DB :=
  match findMovie db movieId with
  | none => (Except.error UpdateShowtimeErr.movieNotFound, db)
  | some movie =>
    match movie.showtimes.find? (fun st => st.sid == stId) with
    | none => (Except.error UpdateShowtimeErr.showtimeNotFound, db)
    | some st =>
      (Except.ok (recomputeSeats newTotalSeats st),
        { db with movies := (updateFirst (fun m => m.id == movieId)
            (fun m => { m with showtimes :=
                (updateFirst (fun st => st.sid == stId)
                  (recomputeSeats newTotalSeats) m.showtimes) })
            db.movies) })

/-- The 36-symbol alphabet of the code generator in the pre-save hook. -/
def codeAlphabet : List Char := "ABCDEFGHIJKLMNOPQRSTUVWXYZ0123456789".toList

/-- One draw of the generator: 8 characters, each indexed into the alphabet
by a random number reduced to the range 0..35. -/
def generateCode (rand : Nat → Nat) : String :=
  String.mk ((List.range 8).map (fun i => codeAlphabet.getD (rand i % 36) 'A'))

/-- A well-formed booking code: exactly 8 characters, all in the alphabet. -/
def isValidCode (c : String) : Prop :=
  c.length = 8 ∧ ∀ ch ∈ c.toList, ch ∈ codeAlphabet

/-- The retry loop of the pre-save hook, with the successive random draws it
would examine given explicitly: the accepted code is the first draw that no
stored booking already bears.  The source loop is unbounded; the list is
the prefix of draws the loop inspects before it terminates. -/
def genUniqueCode (rands : List (Nat → Nat)) (existingCodes : List String) :
    Option String :=
  (rands.map generateCode).find? (fun c => !existingCodes.contains c)

/-- Saving a sequence of new bookings: each save runs the pre-save hook
against the codes of every booking stored so far and appends the accepted
code (bookings are never deleted, so the stored code list only grows). -/
def saveAll (randss : List (List (Nat → Nat))) (codes : List String) :
    Option (List String) :=
  match randss with
  | [] => some codes
  | rs :: rest =>
    match genUniqueCode rs codes with
    | none => none
    | some c => saveAll rest (codes ++ [c])

/-- Two bookings reserve on the same showtime key as stored: same movie,
same exact stored date, same time label. -/
def SameKey (b1 b2 : Booking) : Prop :=
  b1.movie = b2.movie ∧ b1.showtimeDate = b2.showtimeDate ∧
    b1.showtimeTime = b2.showtimeTime

/-- Seat disjointness demanded of a pair of bookings: when both are active
on the same stored showtime key, their seat lists share no label. -/
def SeatOK (b1 b2 : Booking) : Prop :=
  SameKey b1 b2 → activeStatus b1.status = true → activeStatus b2.status = true →
    ∀ s ∈ b1.seats, s ∉ b2.seats

/-- Store-wide seat exclusivity over exact stored showtime keys. -/
def SeatExclusive (db : DB) : Prop := db.bookings.Pairwise SeatOK

/-- The documented counter bounds of one showtime. -/
def ShowtimeInv (st : Showtime) : Prop :=
  0 ≤ st.availableSeats ∧ st.availableSeats ≤ st.totalSeats

/-- The counter bounds over every showtime of every movie. -/
def DBInv (db : DB) : Prop :=
  ∀ m ∈ db.movies, ∀ st ∈ m.showtimes, ShowtimeInv st

/-- The lower counter bound alone, over every showtime of every movie. -/
def DBLowerInv (db : DB) : Prop :=
  ∀ m ∈ db.movies, ∀ st ∈ m.showtimes, 0 ≤ st.availableSeats

instance decidableShowtimeInv (st : Showtime) : Decidable (ShowtimeInv st) := by
  unfold ShowtimeInv; infer_instance

instance decidableDBInv (db : DB) : Decidable (DBInv db) := by
  unfold DBInv; infer_instance

instance decidableDBLowerInv (db : DB) : Decidable (DBLowerInv db) := by
  unfold DBLowerInv; infer_instance

/-- Whether a handler outcome is a success. -/
def isOkResult {ε α : Type} : Except ε α → Bool
  | Except.ok _ => true
  | Except.error _ => false

/-! Helper lemmas about updateFirst. -/

theorem find?_updateFirst {α : Type} {p : α → Bool} {f : α → α}
    (hf : ∀ a, p a = true → p (f a) = true) (l : List α) :
    (updateFirst p f l).find? p = (l.find? p).map f := by
  induction l with
  | nil => rfl
  | cons x xs ih =>
    by_cases hx : p x = true
    · rw [updateFirst, if_pos hx, List.find?_cons_of_pos _ (hf x hx),
        List.find?_cons_of_pos _ hx]
      rfl
    · have hx' : p x = false := Bool.eq_false_iff.mpr hx
      rw [updateFirst, if_neg (by simp [hx']), List.find?_cons_of_neg _ (by simp [hx']),
        List.find?_cons_of_neg _ (by simp [hx']), ih]

theorem updateFirst_of_find?_none {α : Type} {p : α → Bool} {f : α → α}
    {l : List α} (h : l.find? p = none) : updateFirst p f l = l := by
  induction l with
  | nil => rfl
  | cons x xs ih =>
    rw [List.find?_cons] at h
    cases hx : p x with
    | true => rw [hx] at h; cases h
    | false =>
      rw [hx] at h
      rw [updateFirst, if_neg (by simp [hx]), ih h]

theorem mem_updateFirst_of_find? {α : Type} {p : α → Bool} {f : α → α}
    {l : List α} {a x : α} (hfind : l.find? p = some a)
    (hx : x ∈ updateFirst p f l) : x ∈ l ∨ x = f a := by
  induction l with
  | nil => cases hx
  | cons y ys ih =>
    by_cases hy : p y = true
    · rw [List.find?_cons_of_pos _ hy, Option.some_inj] at hfind
      rw [updateFirst, if_pos hy] at hx
      rcases List.mem_cons.mp hx with h | h
      · exact Or.inr (hfind ▸ h)
      · exact Or.inl (List.mem_cons_of_mem _ h)
    · have hy' : p y = false := Bool.eq_false_iff.mpr hy
      rw [List.find?_cons_of_neg _ (by simp [hy'])] at hfind
      rw [updateFirst, if_neg (by simp [hy'])] at hx
      rcases List.mem_cons.mp hx with h | h
      · exact Or.inl (h ▸ List.mem_cons_self y ys)
      · rcases ih hfind h with h2 | h2
        · exact Or.inl (List.mem_cons_of_mem _ h2)
        · exact Or.inr h2

theorem mem_updateFirst {α : Type} {p : α → Bool} {f : α → α}
    {l : List α} {x : α} (hx : x ∈ updateFirst p f l) :
    x ∈ l ∨ ∃ y, y ∈ l ∧ x = f y := by
  induction l with
  | nil => cases hx
  | cons y ys ih =>
    by_cases hy : p y = true
    · rw [updateFirst, if_pos hy] at hx
      rcases List.mem_cons.mp hx with h | h
      · exact Or.inr ⟨y, List.mem_cons_self y ys, h⟩
      · exact Or.inl (List.mem_cons_of_mem _ h)
    · rw [updateFirst, if_neg hy] at hx
      rcases List.mem_cons.mp hx with h | h
      · exact Or.inl (h ▸ List.mem_cons_self y ys)
      · rcases ih h with h2 | ⟨z, hz, hxz⟩
        · exact Or.inl (List.mem_cons_of_mem _ h2)
        · exact Or.inr ⟨z, List.mem_cons_of_mem _ hz, hxz⟩

/-! Helper lemmas about the booked set and the create-booking handler. -/

theorem mem_bookedSeatsFor {s : String} {db : DB} {mid : Nat} {d : Int}
    {t : String} :
    s ∈ bookedSeatsFor db mid d t ↔
      ∃ b ∈ db.bookings, b.movie = mid ∧ b.showtimeDate = d ∧
        b.showtimeTime = t ∧ activeStatus b.status = true ∧ s ∈ b.seats := by
  simp only [bookedSeatsFor, conflictScan, List.mem_flatMap, List.mem_filter,
    Bool.and_eq_true, beq_iff_eq]
  constructor
  · rintro ⟨b, ⟨hb, ⟨⟨⟨h1, h2⟩, h3⟩, h4⟩⟩, hs⟩
    exact ⟨b, hb, h1, h2, h3, h4, hs⟩
  · rintro ⟨b, hb, h1, h2, h3, h4, hs⟩
    exact ⟨b, ⟨hb, ⟨⟨⟨h1, h2⟩, h3⟩, h4⟩⟩, hs⟩

theorem createBooking_ok {db : DB} {userId movieId : Nat} {d : Int} {t : String}
    {seats : List String} {qty : Nat} {pm : String} {notes : Option String}
    {code : String} {b : Booking} {db2 : DB}
    (h : createBooking db userId movieId d t seats qty pm notes code =
      (Except.ok b, db2)) :
    ∃ movie showtime, findMovie db movieId = some movie ∧
      findShowtime movie d t = some showtime ∧
      ¬ showtime.availableSeats < (qty : Int) ∧
      seats.filter (fun s => (bookedSeatsFor db movieId d t).contains s) = [] ∧
      b = { id := db.nextBookingId
            user := userId
            movie := movieId
            showtimeDate := d
            showtimeTime := t
            seats := seats
            quantity := qty
            totalAmount := showtime.price * (qty : Int)
            status := BStatus.pending
            paymentMethod := pm
            notes := notes
            bookingCode := code
            cancelledAt := none
            cancelledBy := none
            cancellationReason := none } ∧
      db2 = { movies := (updateFirst (fun m => m.id == movieId)
                (fun m => { m with showtimes := (updateFirst
                    (showtimeMatch d t)
                    (fun st => { st with
                      availableSeats := st.availableSeats - (qty : Int) })
                    m.showtimes) })
                db.movies)
              bookings := db.bookings ++ [b]
              nextBookingId := db.nextBookingId + 1 } := by
  unfold createBooking at h
  split at h
  · simp at h
  · rename_i movie hm
    split at h
    · simp at h
    · rename_i showtime hst
      split at h
      · simp at h
      · rename_i hcap
        simp only [] at h
        split at h
        · simp at h
        · rename_i hconf
          have hconf2 : seats.filter
              (fun s => (bookedSeatsFor db movieId d t).contains s) = [] :=
            List.length_eq_zero.mp (Nat.eq_zero_of_not_pos hconf)
          simp only [Prod.mk.injEq, Except.ok.injEq] at h
          exact ⟨movie, showtime, hm, hst, hcap, hconf2, h.1.symm,
            h.1 ▸ h.2.symm⟩

theorem createBooking_ok_intro {db : DB} {userId movieId : Nat} {d : Int}
    {t : String} {seats : List String} {qty : Nat} {pm : String}
    {notes : Option String} {code : String} {movie : Movie} {showtime : Showtime}
    (hm : findMovie db movieId = some movie)
    (hst : findShowtime movie d t = some showtime)
    (hcap : ¬ showtime.availableSeats < (qty : Int))
    (hconf : seats.filter (fun s => (bookedSeatsFor db movieId d t).contains s) = []) :
    createBooking db userId movieId d t seats qty pm notes code =
      (Except.ok
        { id := db.nextBookingId
          user := userId
          movie := movieId
          showtimeDate := d
          showtimeTime := t
          seats := seats
          quantity := qty
          totalAmount := showtime.price * (qty : Int)
          status := BStatus.pending
          paymentMethod := pm
          notes := notes
          bookingCode := code
          cancelledAt := none
          cancelledBy := none
          cancellationReason := none },
        { movies := (updateFirst (fun m => m.id == movieId)
            (fun m => { m with showtimes := (updateFirst
                (showtimeMatch d t)
                (fun st => { st with
                  availableSeats := st.availableSeats - (qty : Int) })
                m.showtimes) })
            db.movies)
          bookings := db.bookings ++
            [{ id := db.nextBookingId
               user := userId
               movie := movieId
               showtimeDate := d
               showtimeTime := t
               seats := seats
               quantity := qty
               totalAmount := showtime.price * (qty : Int)
               status := BStatus.pending
               paymentMethod := pm
               notes := notes
               bookingCode := code
               cancelledAt := none
               cancelledBy := none
               cancellationReason := none }]
          nextBookingId := db.nextBookingId + 1 }) := by
  unfold createBooking
  simp only [hm]
  simp only [hst]
  rw [if_neg hcap]
  simp only [hconf, List.length_nil, Nat.lt_irrefl, if_false]

theorem createBooking_seatConflict_intro {db : DB} {userId movieId : Nat}
    {d : Int} {t : String} {seats : List String} {qty : Nat} {pm : String}
    {notes : Option String} {code : String} {movie : Movie} {showtime : Showtime}
    (hm : findMovie db movieId = some movie)
    (hst : findShowtime movie d t = some showtime)
    (hcap : ¬ showtime.availableSeats < (qty : Int))
    (hconf : 0 <
      (seats.filter (fun s => (bookedSeatsFor db movieId d t).contains s)).length) :
    createBooking db userId movieId d t seats qty pm notes code =
      (Except.error (CreateErr.seatConflict
        (seats.filter (fun s => (bookedSeatsFor db movieId d t).contains s))), db) := by
  unfold createBooking
  simp only [hm]
  simp only [hst]
  rw [if_neg hcap]
  simp only [if_pos hconf]

theorem cancelBooking_ok_intro {db : DB} {bookingId actorId : Nat}
    {role : String} (reason : Option String) {now : Int} {b : Booking}
    (hb : findBooking db bookingId = some b)
    (hauth : b.user = actorId ∨ role = "admin")
    (hnc : b.status ≠ BStatus.cancelled)
    (hncomp : b.status ≠ BStatus.completed)
    (hwin : ¬ showtimeDateTime b.showtimeDate b.showtimeTime - now < 7200000) :
    cancelBooking db bookingId actorId role reason now =
      (Except.ok
        { b with
          status := BStatus.cancelled
          cancelledAt := some now
          cancelledBy := some actorId
          cancellationReason := some (reason.getD "Cancelled by user") },
        { db with
          bookings := (updateFirst (fun x => x.id == bookingId)
            (fun _ => { b with
              status := BStatus.cancelled
              cancelledAt := some now
              cancelledBy := some actorId
              cancellationReason := some (reason.getD "Cancelled by user") })
            db.bookings)
          movies := (updateFirst (fun m => m.id == b.movie)
            (fun m => { m with showtimes := (updateFirst
                (cancelMatch b.showtimeDate b.showtimeTime)
                (fun st => { st with
                  availableSeats := st.availableSeats + (b.quantity : Int) })
                m.showtimes) })
            db.movies) }) := by
  unfold cancelBooking
  simp only [hb]
  rw [if_neg (not_not_intro hauth), if_neg hnc, if_neg hncomp, if_neg hwin]

theorem cancelBooking_already_intro {db : DB} {bookingId actorId : Nat}
    {role : String} {reason : Option String} {now : Int} {b : Booking}
    (hb : findBooking db bookingId = some b)
    (hauth : b.user = actorId ∨ role = "admin")
    (hc : b.status = BStatus.cancelled) :
    cancelBooking db bookingId actorId role reason now =
      (Except.error CancelErr.alreadyCancelled, db) := by
  unfold cancelBooking
  simp only [hb]
  rw [if_neg (not_not_intro hauth), if_pos hc]

theorem cancelBooking_window_intro {db : DB} {bookingId actorId : Nat}
    {role : String} {reason : Option String} {now : Int} {b : Booking}
    (hb : findBooking db bookingId = some b)
    (hauth : b.user = actorId ∨ role = "admin")
    (hnc : b.status ≠ BStatus.cancelled)
    (hncomp : b.status ≠ BStatus.completed)
    (hwin : showtimeDateTime b.showtimeDate b.showtimeTime - now < 7200000) :
    cancelBooking db bookingId actorId role reason now =
      (Except.error CancelErr.windowExpired, db) := by
  unfold cancelBooking
  simp only [hb]
  rw [if_neg (not_not_intro hauth), if_neg hnc, if_neg hncomp, if_pos hwin]

/-! Claim theorems. -/

/-- Claim C2 (confirmed): for every CreateBooking call that returns success,
the matched showtime has availableSeats decremented by exactly the requested
quantity, the created booking has status pending and
totalAmount = price * quantity, and every requested seat label appears in
the booked set computed by a subsequent conflict scan for that movie, date
and time. -/
theorem C2_create_success_postcondition {db : DB} {userId movieId : Nat}
    {d : Int} {t : String} {seats : List String} {qty : Nat} {pm : String}
    {notes : Option String} {code : String} {b : Booking} {db2 : DB}
    {movie : Movie} {showtime : Showtime}
    (h : createBooking db userId movieId d t seats qty pm notes code =
      (Except.ok b, db2))
    (hm : findMovie db movieId = some movie)
    (hst : findShowtime movie d t = some showtime) :
    b.status = BStatus.pending ∧
    b.totalAmount = showtime.price * (qty : Int) ∧
    (∃ movie2, findMovie db2 movieId = some movie2 ∧
      findShowtime movie2 d t =
        some { showtime with
               availableSeats := showtime.availableSeats - (qty : Int) }) ∧
    (∀ s ∈ seats, s ∈ bookedSeatsFor db2 movieId d t) := by
  obtain ⟨movie', showtime', hm', hst', hcap, hconf, hb, hdb2⟩ := createBooking_ok h
  rw [hm, Option.some_inj] at hm'
  subst hm'
  rw [hst, Option.some_inj] at hst'
  subst hst'
  refine ⟨by rw [hb], by rw [hb], ?_, ?_⟩
  · refine ⟨{ movie with showtimes := (updateFirst (showtimeMatch d t)
        (fun st => { st with availableSeats := st.availableSeats - (qty : Int) })
        movie.showtimes) }, ?_, ?_⟩
    · rw [hdb2]
      unfold findMovie at hm ⊢
      simp only []
      rw [find?_updateFirst (p := fun m => m.id == movieId)
        (f := fun m => { m with showtimes := (updateFirst (showtimeMatch d t)
          (fun st => { st with availableSeats := st.availableSeats - (qty : Int) })
          m.showtimes) }) (fun a ha => ha) db.movies, hm]
      rfl
    · unfold findShowtime at hst ⊢
      simp only []
      rw [find?_updateFirst (p := showtimeMatch d t)
        (f := fun st => { st with availableSeats := st.availableSeats - (qty : Int) })
        (fun a ha => ha) movie.showtimes, hst]
      rfl
  · intro s hs
    rw [mem_bookedSeatsFor]
    refine ⟨b, ?_, by rw [hb], by rw [hb], by rw [hb], by rw [hb]; rfl, ?_⟩
    · rw [hdb2]
      simp
    · rw [hb]
      exact hs

def dbW2 : DB :=
  { movies := [{ id := 1
                 showtimes := [{ sid := 0
                                 date := 0
                                 time := "18:00"
                                 price := 10
                                 totalSeats := 10
                                 availableSeats := 10
                                 isActive := true }] }]
    bookings := []
    nextBookingId := 0 }

def stW2 : Showtime :=
  { sid := 0, date := 0, time := "18:00", price := 10, totalSeats := 10,
    availableSeats := 10, isActive := true }

def bookingW2 : Booking :=
  { id := 0
    user := 1
    movie := 1
    showtimeDate := 0
    showtimeTime := "18:00"
    seats := ["A1"]
    quantity := 1
    totalAmount := 10
    status := BStatus.pending
    paymentMethod := "cash"
    notes := none
    bookingCode := "AAAAAAAA"
    cancelledAt := none
    cancelledBy := none
    cancellationReason := none }

def dbW2out : DB :=
  { movies := [{ id := 1
                 showtimes := [{ sid := 0
                                 date := 0
                                 time := "18:00"
                                 price := 10
                                 totalSeats := 10
                                 availableSeats := 9
                                 isActive := true }] }]
    bookings := [bookingW2]
    nextBookingId := 1 }

/-- Witness for C2 at a concrete store and request. -/
theorem C2_witness :
    bookingW2.status = BStatus.pending ∧
    bookingW2.totalAmount = stW2.price * ((1 : Nat) : Int) ∧
    (∃ movie2, findMovie dbW2out 1 = some movie2 ∧
      findShowtime movie2 0 "18:00" =
        some { stW2 with
               availableSeats := stW2.availableSeats - ((1 : Nat) : Int) }) ∧
    (∀ s ∈ ["A1"], s ∈ bookedSeatsFor dbW2out 1 0 "18:00") :=
  @C2_create_success_postcondition dbW2 1 1 0 "18:00" ["A1"] 1 "cash" none
    "AAAAAAAA" bookingW2 dbW2out { id := 1, showtimes := [stW2] } stW2
    (by rfl) (by rfl) (by rfl)

theorem find_after_updateFirst {db : DB} {mid : Nat} {q : Showtime → Bool}
    {movie : Movie} {showtime : Showtime} {f : Showtime → Showtime}
    (hm : findMovie db mid = some movie)
    (hst : movie.showtimes.find? q = some showtime)
    (hf : ∀ st, q st = true → q (f st) = true) :
    (updateFirst (fun m => m.id == mid)
        (fun m => { m with showtimes := updateFirst q f m.showtimes })
        db.movies).find? (fun m => m.id == mid) =
      some { movie with showtimes := updateFirst q f movie.showtimes } ∧
    (updateFirst q f movie.showtimes).find? q = some (f showtime) := by
  constructor
  · unfold findMovie at hm
    rw [find?_updateFirst (p := fun m => m.id == mid)
      (f := fun m => { m with showtimes := updateFirst q f m.showtimes })
      (fun a ha => ha) db.movies, hm]
    rfl
  · rw [find?_updateFirst (p := q) (f := f) hf movie.showtimes, hst]
    rfl

/-- Claim C8 (confirmed): every CreateBooking failure (movie or showtime not
found, capacity exceeded, or seat conflict) leaves the store untouched: no
booking is created and no showtime availableSeats changes. -/
theorem C8_failure_atomicity {db : DB} {userId movieId : Nat} {d : Int}
    {t : String} {seats : List String} {qty : Nat} {pm : String}
    {notes : Option String} {code : String} {e : CreateErr} {db2 : DB}
    (h : createBooking db userId movieId d t seats qty pm notes code =
      (Except.error e, db2)) :
    db2 = db ∧ db2.bookings = db.bookings ∧ db2.movies = db.movies := by
  unfold createBooking at h
  split at h
  · injection h with h1 h2
    exact ⟨h2.symm, by rw [← h2], by rw [← h2]⟩
  · split at h
    · injection h with h1 h2
      exact ⟨h2.symm, by rw [← h2], by rw [← h2]⟩
    · split at h
      · injection h with h1 h2
        exact ⟨h2.symm, by rw [← h2], by rw [← h2]⟩
      · simp only [] at h
        split at h
        · injection h with h1 h2
          exact ⟨h2.symm, by rw [← h2], by rw [← h2]⟩
        · simp at h

def dbW8 : DB := { movies := [], bookings := [], nextBookingId := 0 }

/-- Witness for C8: creating against an absent movie fails and changes
nothing. -/
theorem C8_witness :
    dbW8 = dbW8 ∧ dbW8.bookings = dbW8.bookings ∧ dbW8.movies = dbW8.movies :=
  @C8_failure_atomicity dbW8 1 1 0 "18:00" ["A1"] 1 "cash" none "AAAAAAAA"
    CreateErr.movieNotFound dbW8 (by rfl)

/-- Claim C10 (confirmed): CreateBooking never rejects a request because
quantity differs from the number of seat labels; whenever the movie and
showtime resolve, capacity admits the quantity and no requested seat is in
the booked set, the booking is created with the given quantity and seat
list, totalAmount = price * quantity, and the decrement uses quantity —
with no relation between quantity and seats.length required. -/
theorem C10_quantity_seat_count_not_enforced {db : DB} {userId movieId : Nat}
    {d : Int} {t : String} {seats : List String} {qty : Nat} {pm : String}
    {notes : Option String} {code : String} {movie : Movie} {showtime : Showtime}
    (hs : seats ≠ []) (hq : 1 ≤ qty)
    (hm : findMovie db movieId = some movie)
    (hst : findShowtime movie d t = some showtime)
    (hcap : ¬ showtime.availableSeats < (qty : Int))
    (hconf : seats.filter (fun s => (bookedSeatsFor db movieId d t).contains s) = []) :
    ∃ b db2, createBooking db userId movieId d t seats qty pm notes code =
        (Except.ok b, db2) ∧
      b.quantity = qty ∧ b.seats = seats ∧ b.status = BStatus.pending ∧
      b.totalAmount = showtime.price * (qty : Int) ∧
      ∃ movie2, findMovie db2 movieId = some movie2 ∧
        findShowtime movie2 d t =
          some { showtime with
                 availableSeats := showtime.availableSeats - (qty : Int) } := by
  refine ⟨_, _, createBooking_ok_intro hm hst hcap hconf, rfl, rfl, rfl, rfl, ?_⟩
  unfold findShowtime at hst
  refine ⟨{ movie with showtimes := (updateFirst (showtimeMatch d t)
    (fun st => { st with availableSeats := st.availableSeats - (qty : Int) })
    movie.showtimes) }, ?_, ?_⟩
  · exact (find_after_updateFirst
      (f := fun st => { st with availableSeats := st.availableSeats - (qty : Int) })
      hm hst (fun a ha => ha)).1
  · exact (find_after_updateFirst
      (f := fun st => { st with availableSeats := st.availableSeats - (qty : Int) })
      hm hst (fun a ha => ha)).2

def dbW10 : DB :=
  { movies := [{ id := 3
                 showtimes := [{ sid := 0
                                 date := 0
                                 time := "20:00"
                                 price := 7
                                 totalSeats := 10
                                 availableSeats := 10
                                 isActive := true }] }]
    bookings := []
    nextBookingId := 0 }

def stW10 : Showtime :=
  { sid := 0, date := 0, time := "20:00", price := 7, totalSeats := 10,
    availableSeats := 10, isActive := true }

/-- Witness for C10: a request with one seat label but quantity 3 is
accepted, demonstrating that quantity and seat count are not tied. -/
theorem C10_witness :
    ∃ b db2, createBooking dbW10 1 3 0 "20:00" ["A1"] 3 "cash" none "AAAAAAAA" =
        (Except.ok b, db2) ∧
      b.quantity = 3 ∧ b.seats = ["A1"] ∧ b.status = BStatus.pending ∧
      b.totalAmount = stW10.price * ((3 : Nat) : Int) ∧
      ∃ movie2, findMovie db2 3 = some movie2 ∧
        findShowtime movie2 0 "20:00" =
          some { stW10 with
                 availableSeats := stW10.availableSeats - ((3 : Nat) : Int) } :=
  @C10_quantity_seat_count_not_enforced dbW10 1 3 0 "20:00" ["A1"] 3 "cash"
    none "AAAAAAAA" { id := 3, showtimes := [stW10] } stW10
    (by decide) (by decide) (by rfl) (by rfl) (by decide) (by rfl)

def stW4 : Showtime :=
  { sid := 0, date := 0, time := "19:00", price := 5, totalSeats := 50,
    availableSeats := 50, isActive := true }

def movieW4 : Movie := { id := 2, showtimes := [stW4] }

def dbW4 : DB := { movies := [movieW4], bookings := [], nextBookingId := 0 }

def rW4a : Except CreateErr Booking × DB :=
  createBooking dbW4 1 2 1000 "19:00" ["A1"] 1 "cash" none "AAAAAAAA"

def rW4b : Except CreateErr Booking × DB :=
  createBooking rW4a.2 2 2 2000 "19:00" ["A1"] 1 "cash" none "BBBBBBBB"

/-- Claim C4 (confirmed): because the showtime lookup matches by calendar
day while the conflict scan matches the stored date exactly, two sequential
requests with different timestamps on the same day and the same time label
resolve to the same showtime, the second scan misses the first booking, and
both bookings succeed for the same seat label. -/
theorem C4_date_mismatch_double_booking :
    (1000 : Int) ≠ 2000 ∧
    toDateString 1000 = toDateString 2000 ∧
    findMovie dbW4 2 = some movieW4 ∧
    findShowtime movieW4 1000 "19:00" = some stW4 ∧
    findShowtime movieW4 2000 "19:00" = some stW4 ∧
    isOkResult rW4a.1 = true ∧
    bookedSeatsFor rW4a.2 2 2000 "19:00" = [] ∧
    isOkResult rW4b.1 = true ∧
    rW4b.2.bookings.map Booking.seats = [["A1"], ["A1"]] ∧
    rW4b.2.bookings.map Booking.status = [BStatus.pending, BStatus.pending] := by
  decide

def stX1 : Showtime :=
  { sid := 0, date := 0, time := "21:00", price := 5, totalSeats := 40,
    availableSeats := 40, isActive := true }

def movieX1 : Movie := { id := 9, showtimes := [stX1] }

def dbX1 : DB := { movies := [movieX1], bookings := [], nextBookingId := 0 }

def rX1a : Except CreateErr Booking × DB :=
  createBooking dbX1 1 9 0 "21:00" ["A1"] 1 "cash" none "AAAAAAAA"

def rX1b : Except CreateErr Booking × DB :=
  createBooking rX1a.2 2 9 7200000 "21:00" ["A1"] 1 "cash" none "BBBBBBBB"

/-- Counterexample to claim C1 as stated: after a successful booking of seat
A1 on the showtime, a subsequent request that resolves to the very same
showtime (same calendar day, same time label, merely a different timestamp
within the day) and includes A1 does NOT fail with SeatConflict: it
succeeds, leaving two pending bookings that both hold A1. -/
theorem C1_counterexample :
    toDateString (0 : Int) = toDateString 7200000 ∧
    findShowtime movieX1 0 "21:00" = some stX1 ∧
    findShowtime movieX1 7200000 "21:00" = some stX1 ∧
    isOkResult rX1a.1 = true ∧
    isOkResult rX1b.1 = true ∧
    rX1b.2.bookings.map Booking.seats = [["A1"], ["A1"]] ∧
    rX1b.2.bookings.map Booking.status = [BStatus.pending, BStatus.pending] := by
  decide

/-- Claim C1 amended (corrected): seat-level exclusivity holds per exact
stored showtime key (movie, stored date value, time label), not per
calendar-day showtime: a successful CreateBooking preserves the invariant
that no two pending-or-confirmed bookings with the same exact key share a
seat label, and a subsequent request carrying the SAME showtimeDate value
that passes the capacity check and includes an already-booked seat fails
with SeatConflict naming that seat.  (As stated the claim is false: a
subsequent request for the same showtime via a different same-day timestamp
succeeds, see the counterexample.) -/
theorem C1_amended_exact_key_exclusivity {db : DB} {userId movieId : Nat}
    {d : Int} {t : String} {seats : List String} {qty : Nat} {pm : String}
    {notes : Option String} {code : String} {b : Booking} {db2 : DB}
    {movie : Movie} {showtime : Showtime}
    {userId2 : Nat} {seats2 : List String} {qty2 : Nat} {pm2 : String}
    {notes2 : Option String} {code2 : String} {s : String}
    (hx : SeatExclusive db)
    (hm : findMovie db movieId = some movie)
    (hst : findShowtime movie d t = some showtime)
    (h : createBooking db userId movieId d t seats qty pm notes code =
      (Except.ok b, db2))
    (hs1 : s ∈ seats) (hs2 : s ∈ seats2)
    (hcap2 : ¬ showtime.availableSeats - (qty : Int) < (qty2 : Int)) :
    SeatExclusive db2 ∧
    ∃ cs, (createBooking db2 userId2 movieId d t seats2 qty2 pm2 notes2 code2).1 =
      Except.error (CreateErr.seatConflict cs) ∧ s ∈ cs := by
  obtain ⟨movie', showtime', hm', hst', hcap, hconf, hb, hdb2⟩ := createBooking_ok h
  rw [hm, Option.some_inj] at hm'
  subst hm'
  rw [hst, Option.some_inj] at hst'
  subst hst'
  constructor
  · rw [hdb2]
    unfold SeatExclusive
    show (db.bookings ++ [b]).Pairwise SeatOK
    rw [List.pairwise_append]
    refine ⟨hx, List.pairwise_singleton _ _, ?_⟩
    intro x hxmem y hymem
    rw [List.mem_singleton] at hymem
    subst hymem
    intro hkey hactx hactb s2 hs2x
    rw [hb]
    simp only []
    intro hs2seats
    have hsb : s2 ∈ bookedSeatsFor db movieId d t := by
      rw [mem_bookedSeatsFor]
      refine ⟨x, hxmem, ?_, ?_, ?_, hactx, hs2x⟩
      · rw [hkey.1, hb]
      · rw [hkey.2.1, hb]
      · rw [hkey.2.2, hb]
    have : s2 ∈ seats.filter
        (fun s => (bookedSeatsFor db movieId d t).contains s) :=
      List.mem_filter.mpr ⟨hs2seats, List.elem_iff.mpr hsb⟩
    rw [hconf] at this
    cases this
  · unfold findShowtime at hst
    have hfind := find_after_updateFirst
      (f := fun st => { st with availableSeats := st.availableSeats - (qty : Int) })
      hm hst (fun a ha => ha)
    have hm2 : findMovie db2 movieId = some { movie with showtimes :=
        (updateFirst (showtimeMatch d t)
          (fun st => { st with availableSeats := st.availableSeats - (qty : Int) })
          movie.showtimes) } := by
      rw [hdb2]; exact hfind.1
    have hst2 : findShowtime { movie with showtimes :=
        (updateFirst (showtimeMatch d t)
          (fun st => { st with availableSeats := st.availableSeats - (qty : Int) })
          movie.showtimes) } d t = some { showtime with
            availableSeats := showtime.availableSeats - (qty : Int) } := hfind.2
    have hsb2 : s ∈ bookedSeatsFor db2 movieId d t := by
      rw [mem_bookedSeatsFor]
      refine ⟨b, ?_, by rw [hb], by rw [hb], by rw [hb], by rw [hb]; rfl,
        by rw [hb]; exact hs1⟩
      rw [hdb2]
      simp
    have hmemcs : s ∈ seats2.filter
        (fun x => (bookedSeatsFor db2 movieId d t).contains x) :=
      List.mem_filter.mpr ⟨hs2, List.elem_iff.mpr hsb2⟩
    refine ⟨_, ?_, hmemcs⟩
    rw [createBooking_seatConflict_intro hm2 hst2 hcap2
      (List.length_pos.mpr (List.ne_nil_of_mem hmemcs))]

def stW1 : Showtime :=
  { sid := 0, date := 500, time := "17:00", price := 6, totalSeats := 10,
    availableSeats := 10, isActive := true }

def dbW1 : DB :=
  { movies := [{ id := 4, showtimes := [stW1] }], bookings := [],
    nextBookingId := 0 }

def bookingW1 : Booking :=
  { id := 0
    user := 1
    movie := 4
    showtimeDate := 500
    showtimeTime := "17:00"
    seats := ["A1", "A2"]
    quantity := 2
    totalAmount := 12
    status := BStatus.pending
    paymentMethod := "cash"
    notes := none
    bookingCode := "AAAAAAAA"
    cancelledAt := none
    cancelledBy := none
    cancellationReason := none }

def dbW1out : DB :=
  { movies := [{ id := 4
                 showtimes := [{ sid := 0
                                 date := 500
                                 time := "17:00"
                                 price := 6
                                 totalSeats := 10
                                 availableSeats := 8
                                 isActive := true }] }]
    bookings := [bookingW1]
    nextBookingId := 1 }

/-- Witness for the amended C1: with the same showtimeDate value carried
again, rebooking seat A1 fails with SeatConflict naming A1, and exclusivity
over exact stored keys is preserved. -/
theorem C1_witness :
    SeatExclusive dbW1out ∧
    ∃ cs, (createBooking dbW1out 2 4 500 "17:00" ["A1"] 1 "cash" none
        "BBBBBBBB").1 =
      Except.error (CreateErr.seatConflict cs) ∧ "A1" ∈ cs :=
  @C1_amended_exact_key_exclusivity dbW1 1 4 500 "17:00" ["A1", "A2"] 2 "cash"
    none "AAAAAAAA" bookingW1 dbW1out { id := 4, showtimes := [stW1] } stW1
    2 ["A1"] 1 "cash" none "BBBBBBBB" "A1"
    List.Pairwise.nil (by rfl) (by rfl) (by rfl) (by decide) (by decide)
    (by decide)

theorem activeStatus_ne {s : BStatus} (h : activeStatus s = true) :
    s ≠ BStatus.cancelled ∧ s ≠ BStatus.completed := by
  cases s <;> revert h <;> decide

/-- Claim C3 (confirmed): cancelling a pending or confirmed booking (owner
or admin, outside the 2-hour window) succeeds with status cancelled; the
matching showtime of its movie gets availableSeats increased by exactly the
booking quantity; a second cancellation of the same booking is rejected as
already cancelled; and when no showtime of the movie matches the stored
date and time, the movie is left unchanged while the booking is still
cancelled. -/
theorem C3_cancellation_effect {db : DB} {bookingId actorId : Nat}
    {role : String} {reason : Option String} {now : Int} {b : Booking}
    (hb : findBooking db bookingId = some b)
    (hact : activeStatus b.status = true)
    (hauth : b.user = actorId ∨ role = "admin")
    (hwin : ¬ showtimeDateTime b.showtimeDate b.showtimeTime - now < 7200000) :
    (∃ b2, (cancelBooking db bookingId actorId role reason now).1 =
        Except.ok b2 ∧ b2.status = BStatus.cancelled ∧
        b2.quantity = b.quantity ∧ b2.seats = b.seats) ∧
    ((cancelBooking (cancelBooking db bookingId actorId role reason now).2
        bookingId actorId role reason now).1 =
      Except.error CancelErr.alreadyCancelled) ∧
    (∀ movie st, findMovie db b.movie = some movie →
      findShowtimeForCancel movie b.showtimeDate b.showtimeTime = some st →
      ∃ movie2, findMovie (cancelBooking db bookingId actorId role reason now).2
          b.movie = some movie2 ∧
        findShowtimeForCancel movie2 b.showtimeDate b.showtimeTime =
          some { st with
                 availableSeats := st.availableSeats + (b.quantity : Int) }) ∧
    (∀ movie, findMovie db b.movie = some movie →
      findShowtimeForCancel movie b.showtimeDate b.showtimeTime = none →
      findMovie (cancelBooking db bookingId actorId role reason now).2 b.movie =
        some movie) := by
  obtain ⟨hnc, hncomp⟩ := activeStatus_ne hact
  have hcancel := cancelBooking_ok_intro reason hb hauth hnc hncomp hwin
  have hid : (b.id == bookingId) = true := by
    have := List.find?_some hb
    exact this
  refine ⟨⟨{ b with
    status := BStatus.cancelled
    cancelledAt := some now
    cancelledBy := some actorId
    cancellationReason := some (reason.getD "Cancelled by user") },
    by rw [hcancel], rfl, rfl, rfl⟩, ?_, ?_, ?_⟩
  · have hb2 : findBooking (cancelBooking db bookingId actorId role reason now).2
        bookingId = some { b with
          status := BStatus.cancelled
          cancelledAt := some now
          cancelledBy := some actorId
          cancellationReason := some (reason.getD "Cancelled by user") } := by
      rw [hcancel]
      unfold findBooking at hb ⊢
      simp only []
      rw [find?_updateFirst (p := fun x => x.id == bookingId)
        (f := fun _ => { b with
          status := BStatus.cancelled
          cancelledAt := some now
          cancelledBy := some actorId
          cancellationReason := some (reason.getD "Cancelled by user") })
        (fun a _ => hid) db.bookings, hb]
      rfl
    rw [cancelBooking_already_intro hb2 hauth rfl]
  · intro movie st hmv hstf
    unfold findShowtimeForCancel at hstf
    have hfind := find_after_updateFirst
      (f := fun st => { st with
        availableSeats := st.availableSeats + (b.quantity : Int) })
      hmv hstf (fun a ha => ha)
    refine ⟨{ movie with showtimes := (updateFirst
        (cancelMatch b.showtimeDate b.showtimeTime)
        (fun st => { st with
          availableSeats := st.availableSeats + (b.quantity : Int) })
        movie.showtimes) }, ?_, hfind.2⟩
    rw [hcancel]
    exact hfind.1
  · intro movie hmv hstf
    unfold findShowtimeForCancel at hstf
    have hupd : updateFirst (cancelMatch b.showtimeDate b.showtimeTime)
        (fun st => { st with
          availableSeats := st.availableSeats + (b.quantity : Int) })
        movie.showtimes = movie.showtimes := updateFirst_of_find?_none hstf
    rw [hcancel]
    unfold findMovie at hmv ⊢
    simp only []
    rw [find?_updateFirst (p := fun m => m.id == b.movie)
      (f := fun m => { m with showtimes := (updateFirst
        (cancelMatch b.showtimeDate b.showtimeTime)
        (fun st => { st with
          availableSeats := st.availableSeats + (b.quantity : Int) })
        m.showtimes) })
      (fun a ha => ha) db.movies, hmv]
    show some { movie with showtimes := (updateFirst
      (cancelMatch b.showtimeDate b.showtimeTime)
      (fun st => { st with
        availableSeats := st.availableSeats + (b.quantity : Int) })
      movie.showtimes) } = some movie
    rw [hupd]

/-- Claim C5 (confirmed): for a cancellable booking and any authorized
actor — the admin role included, with no exemption — the cancellation is
rejected as window-expired exactly when the gap from now to the showtime
start is strictly below 2 hours (7200000 ms); at a gap of exactly 2 hours
or more the window check passes and the cancellation succeeds. -/
theorem C5_cancellation_window_boundary {db : DB} {bookingId actorId : Nat}
    {role : String} {reason : Option String} {now : Int} {b : Booking}
    (hb : findBooking db bookingId = some b)
    (hact : activeStatus b.status = true)
    (hauth : b.user = actorId ∨ role = "admin") :
    (showtimeDateTime b.showtimeDate b.showtimeTime - now < 7200000 →
      (cancelBooking db bookingId actorId role reason now).1 =
        Except.error CancelErr.windowExpired) ∧
    (¬ showtimeDateTime b.showtimeDate b.showtimeTime - now < 7200000 →
      ∃ b2, (cancelBooking db bookingId actorId role reason now).1 =
        Except.ok b2 ∧ b2.status = BStatus.cancelled) := by
  obtain ⟨hnc, hncomp⟩ := activeStatus_ne hact
  constructor
  · intro hwin
    rw [cancelBooking_window_intro hb hauth hnc hncomp hwin]
  · intro hwin
    rw [cancelBooking_ok_intro reason hb hauth hnc hncomp hwin]
    exact ⟨_, rfl, rfl⟩

def stW3 : Showtime :=
  { sid := 0, date := 0, time := "18:00", price := 8, totalSeats := 10,
    availableSeats := 5, isActive := true }

def movieW3 : Movie := { id := 6, showtimes := [stW3] }

def bookingW3 : Booking :=
  { id := 0
    user := 1
    movie := 6
    showtimeDate := 0
    showtimeTime := "18:00"
    seats := ["B1"]
    quantity := 1
    totalAmount := 8
    status := BStatus.pending
    paymentMethod := "cash"
    notes := none
    bookingCode := "CCCCCCCC"
    cancelledAt := none
    cancelledBy := none
    cancellationReason := none }

def dbW3 : DB :=
  { movies := [movieW3], bookings := [bookingW3], nextBookingId := 1 }

/-- Witness for C3 at a concrete store: cancel succeeds, seats are
restored by the booking quantity, and a second cancel is rejected. -/
theorem C3_witness :
    (∃ b2, (cancelBooking dbW3 0 1 "user" none 0).1 = Except.ok b2 ∧
      b2.status = BStatus.cancelled ∧ b2.quantity = bookingW3.quantity ∧
      b2.seats = bookingW3.seats) ∧
    ((cancelBooking (cancelBooking dbW3 0 1 "user" none 0).2 0 1 "user"
        none 0).1 = Except.error CancelErr.alreadyCancelled) ∧
    (∃ movie2, findMovie (cancelBooking dbW3 0 1 "user" none 0).2 6 =
        some movie2 ∧
      findShowtimeForCancel movie2 0 "18:00" =
        some { stW3 with
               availableSeats := stW3.availableSeats + ((1 : Nat) : Int) }) := by
  have T := @C3_cancellation_effect dbW3 0 1 "user" none 0 bookingW3
    (by rfl) (by decide) (Or.inl rfl) (by decide)
  exact ⟨T.1, T.2.1, T.2.2.1 movieW3 stW3 (by rfl) (by rfl)⟩

def stW5 : Showtime :=
  { sid := 0, date := 0, time := "12:00", price := 8, totalSeats := 10,
    availableSeats := 5, isActive := true }

def bookingW5 : Booking :=
  { id := 0
    user := 1
    movie := 7
    showtimeDate := 0
    showtimeTime := "12:00"
    seats := ["C1"]
    quantity := 1
    totalAmount := 8
    status := BStatus.confirmed
    paymentMethod := "cash"
    notes := none
    bookingCode := "DDDDDDDD"
    cancelledAt := none
    cancelledBy := none
    cancellationReason := none }

def dbW5 : DB :=
  { movies := [{ id := 7, showtimes := [stW5] }], bookings := [bookingW5],
    nextBookingId := 1 }

/-- Witness for C5: an admin cancelling 1 ms inside the 2-hour window is
rejected; at exactly 2 hours before the showtime the cancellation
succeeds. -/
theorem C5_witness :
    ((cancelBooking dbW5 0 99 "admin" none 36000001).1 =
      Except.error CancelErr.windowExpired) ∧
    (∃ b2, (cancelBooking dbW5 0 99 "admin" none 36000000).1 =
      Except.ok b2 ∧ b2.status = BStatus.cancelled) :=
  ⟨(@C5_cancellation_window_boundary dbW5 0 99 "admin" none 36000001 bookingW5
      (by rfl) (by decide) (Or.inr rfl)).1 (by decide),
   (@C5_cancellation_window_boundary dbW5 0 99 "admin" none 36000000 bookingW5
      (by rfl) (by decide) (Or.inr rfl)).2 (by decide)⟩

def bookingX6a : Booking :=
  { id := 3
    user := 1
    movie := 8
    showtimeDate := 0
    showtimeTime := "18:00"
    seats := ["D1"]
    quantity := 1
    totalAmount := 8
    status := BStatus.cancelled
    paymentMethod := "cash"
    notes := none
    bookingCode := "EEEEEEEE"
    cancelledAt := some 0
    cancelledBy := some 1
    cancellationReason := some "Cancelled by user" }

def bookingX6b : Booking :=
  { id := 4
    user := 1
    movie := 8
    showtimeDate := 0
    showtimeTime := "18:00"
    seats := ["D2"]
    quantity := 2
    totalAmount := 16
    status := BStatus.pending
    paymentMethod := "cash"
    notes := none
    bookingCode := "FFFFFFFF"
    cancelledAt := none
    cancelledBy := none
    cancellationReason := none }

def dbX6 : DB :=
  { movies := [{ id := 8
                 showtimes := [{ sid := 0
                                 date := 0
                                 time := "18:00"
                                 price := 8
                                 totalSeats := 10
                                 availableSeats := 3
                                 isActive := true }] }]
    bookings := [bookingX6a, bookingX6b]
    nextBookingId := 5 }

/-- Counterexample to claim C6 as stated: the admin status route moves a
cancelled booking back to confirmed (so cancelled is not terminal across
every operation), and when it sets a booking to cancelled it leaves every
showtime untouched (so this transition into cancelled restores no seats). -/
theorem C6_counterexample :
    bookingX6a.status = BStatus.cancelled ∧
    (findBooking (adminSetBookingStatus dbX6 3 BStatus.confirmed none 99
        1000).2 3).map Booking.status = some BStatus.confirmed ∧
    bookingX6b.status = BStatus.pending ∧
    (adminSetBookingStatus dbX6 4 BStatus.cancelled none 99 1000).2.movies =
      dbX6.movies ∧
    (findBooking (adminSetBookingStatus dbX6 4 BStatus.cancelled none 99
        1000).2 4).map Booking.status = some BStatus.cancelled := by
  decide

/-- Claim C6 amended (corrected): the terminality and restoration
properties hold only for the user cancel route — it rejects a booking that
is already cancelled, and its transition into cancelled restores the
matching showtime by the booking quantity when one exists — while the
admin status route can move a booking out of cancelled and never touches
any showtime counter when it sets a status, cancelled included. -/
theorem C6_amended_terminality_scoped :
    (∀ (db : DB) (bookingId actorId : Nat) (role : String)
        (reason : Option String) (now : Int) (b : Booking),
      findBooking db bookingId = some b →
      (b.user = actorId ∨ role = "admin") →
      b.status = BStatus.cancelled →
      (cancelBooking db bookingId actorId role reason now).1 =
        Except.error CancelErr.alreadyCancelled) ∧
    (∀ (db : DB) (bookingId : Nat) (newStatus : BStatus)
        (reason : Option String) (actorId : Nat) (now : Int),
      (adminSetBookingStatus db bookingId newStatus reason actorId now).2.movies =
        db.movies) ∧
    (∀ (db : DB) (bookingId actorId : Nat) (role : String)
        (reason : Option String) (now : Int) (b : Booking)
        (movie : Movie) (st : Showtime),
      findBooking db bookingId = some b →
      activeStatus b.status = true →
      (b.user = actorId ∨ role = "admin") →
      ¬ showtimeDateTime b.showtimeDate b.showtimeTime - now < 7200000 →
      findMovie db b.movie = some movie →
      findShowtimeForCancel movie b.showtimeDate b.showtimeTime = some st →
      ∃ movie2, findMovie (cancelBooking db bookingId actorId role reason
          now).2 b.movie = some movie2 ∧
        findShowtimeForCancel movie2 b.showtimeDate b.showtimeTime =
          some { st with
                 availableSeats := st.availableSeats + (b.quantity : Int) }) := by
  refine ⟨?_, ?_, ?_⟩
  · intro db bookingId actorId role reason now b hb hauth hc
    rw [cancelBooking_already_intro hb hauth hc]
  · intro db bookingId newStatus reason actorId now
    unfold adminSetBookingStatus
    cases hfb : findBooking db bookingId <;> simp [hfb]
  · intro db bookingId actorId role reason now b movie st hb hact hauth hwin
      hmv hstf
    obtain ⟨hnc, hncomp⟩ := activeStatus_ne hact
    have hcancel := cancelBooking_ok_intro reason hb hauth hnc hncomp hwin
    unfold findShowtimeForCancel at hstf
    have hfind := find_after_updateFirst
      (f := fun st => { st with
        availableSeats := st.availableSeats + (b.quantity : Int) })
      hmv hstf (fun a ha => ha)
    refine ⟨{ movie with showtimes := (updateFirst
        (cancelMatch b.showtimeDate b.showtimeTime)
        (fun st => { st with
          availableSeats := st.availableSeats + (b.quantity : Int) })
        movie.showtimes) }, ?_, hfind.2⟩
    rw [hcancel]
    exact hfind.1

def bookingW6a : Booking :=
  { id := 0
    user := 1
    movie := 8
    showtimeDate := 0
    showtimeTime := "18:00"
    seats := ["E1"]
    quantity := 1
    totalAmount := 8
    status := BStatus.cancelled
    paymentMethod := "cash"
    notes := none
    bookingCode := "GGGGGGGG"
    cancelledAt := some 0
    cancelledBy := some 1
    cancellationReason := some "Cancelled by user" }

def bookingW6b : Booking :=
  { id := 1
    user := 1
    movie := 8
    showtimeDate := 0
    showtimeTime := "18:00"
    seats := ["E2", "E3"]
    quantity := 2
    totalAmount := 16
    status := BStatus.pending
    paymentMethod := "cash"
    notes := none
    bookingCode := "HHHHHHHH"
    cancelledAt := none
    cancelledBy := none
    cancellationReason := none }

def stW6 : Showtime :=
  { sid := 0, date := 0, time := "18:00", price := 8, totalSeats := 10,
    availableSeats := 4, isActive := true }

def movieW6 : Movie := { id := 8, showtimes := [stW6] }

def dbW6 : DB :=
  { movies := [movieW6], bookings := [bookingW6a, bookingW6b],
    nextBookingId := 2 }

/-- Witness for the amended C6 at a concrete store. -/
theorem C6_witness :
    ((cancelBooking dbW6 0 1 "user" none 0).1 =
      Except.error CancelErr.alreadyCancelled) ∧
    ((adminSetBookingStatus dbW6 1 BStatus.cancelled none 9 50).2.movies =
      dbW6.movies) ∧
    (∃ movie2, findMovie (cancelBooking dbW6 1 1 "user" none 0).2 8 =
        some movie2 ∧
      findShowtimeForCancel movie2 0 "18:00" =
        some { stW6 with
               availableSeats := stW6.availableSeats + ((2 : Nat) : Int) }) := by
  have T := C6_amended_terminality_scoped
  exact ⟨T.1 dbW6 0 1 "user" none 0 bookingW6a (by rfl) (Or.inl rfl) rfl,
    T.2.1 dbW6 1 BStatus.cancelled none 9 50,
    T.2.2 dbW6 1 1 "user" none 0 bookingW6b movieW6 stW6 (by rfl) (by decide)
      (Or.inl rfl) (by decide) (by rfl) (by rfl)⟩

def dbX7 : DB :=
  { movies := [{ id := 1
                 showtimes := [{ sid := 5
                                 date := 0
                                 time := "18:00"
                                 price := 10
                                 totalSeats := 2
                                 availableSeats := 2
                                 isActive := true }] }]
    bookings := []
    nextBookingId := 0 }

def rX7a : Except CreateErr Booking × DB :=
  createBooking dbX7 1 1 0 "18:00" ["A1", "A2"] 2 "cash" none "AAAAAAAA"

def rX7b : Except UpdateShowtimeErr Showtime × DB :=
  updateShowtimeTotalSeats rX7a.2 1 5 1

def rX7c : Except CancelErr Booking × DB :=
  cancelBooking rX7b.2 0 1 "user" none 0

/-- Counterexample to claim C7 as stated: starting from a store satisfying
0 <= availableSeats <= totalSeats, booking both seats, shrinking totalSeats
to 1 via the admin recomputation, and then cancelling the booking leaves
the showtime with availableSeats = 2 > totalSeats = 1: the cancellation
increment restores past the shrunk capacity. -/
theorem C7_counterexample :
    DBInv dbX7 ∧
    isOkResult rX7a.1 = true ∧
    isOkResult rX7b.1 = true ∧
    isOkResult rX7c.1 = true ∧
    rX7c.2.movies.map
      (fun m => m.showtimes.map (fun st => (st.availableSeats, st.totalSeats))) =
      [[((2 : Int), (1 : Int))]] ∧
    ¬ DBInv rX7c.2 := by
  decide

/-- Claim C7 amended (corrected): booking creation preserves the full
bounds 0 <= availableSeats <= totalSeats, the admin totalSeats
recomputation preserves them whenever the new totalSeats is at least 1,
and cancellation preserves only the lower bound — its unclamped increment
can push availableSeats above a totalSeats that was shrunk after the
booking was made (see the counterexample). -/
theorem C7_amended_counter_bounds :
    (∀ (db : DB) (userId movieId : Nat) (d : Int) (t : String)
        (seats : List String) (qty : Nat) (pm : String) (notes : Option String)
        (code : String) (b : Booking) (db2 : DB),
      DBInv db →
      createBooking db userId movieId d t seats qty pm notes code =
        (Except.ok b, db2) →
      DBInv db2) ∧
    (∀ (db : DB) (movieId stId : Nat) (newTotalSeats : Int)
        (r : Except UpdateShowtimeErr Showtime) (db2 : DB),
      DBInv db → 1 ≤ newTotalSeats →
      updateShowtimeTotalSeats db movieId stId newTotalSeats = (r, db2) →
      DBInv db2) ∧
    (∀ (db : DB) (bookingId actorId : Nat) (role : String)
        (reason : Option String) (now : Int) (r : Except CancelErr Booking)
        (db2 : DB),
      DBLowerInv db →
      cancelBooking db bookingId actorId role reason now = (r, db2) →
      DBLowerInv db2) := by
  refine ⟨?_, ?_, ?_⟩
  · intro db userId movieId d t seats qty pm notes code b db2 hinv h
    obtain ⟨movie, showtime, hm, hst, hcap, hconf, hb, hdb2⟩ := createBooking_ok h
    subst hdb2
    intro m2 hm2 st2 hst2
    unfold findMovie at hm
    rcases mem_updateFirst_of_find? hm hm2 with hmem | hmeq
    · exact hinv m2 hmem st2 hst2
    · subst hmeq
      unfold findShowtime at hst
      rcases mem_updateFirst_of_find? hst hst2 with hsmem | hseq
      · exact hinv movie (List.mem_of_find?_eq_some hm) st2 hsmem
      · subst hseq
        have hsinv : ShowtimeInv showtime :=
          hinv movie (List.mem_of_find?_eq_some hm) showtime
            (List.mem_of_find?_eq_some hst)
        obtain ⟨h1, h2⟩ := hsinv
        constructor
        · simp only []
          omega
        · simp only []
          omega
  · intro db movieId stId newTotalSeats r db2 hinv hpos h
    unfold updateShowtimeTotalSeats at h
    split at h
    · injection h with h1 h2
      rw [← h2]; exact hinv
    · rename_i movie hm
      split at h
      · injection h with h1 h2
        rw [← h2]; exact hinv
      · rename_i st hstid
        injection h with h1 h2
        rw [← h2]
        intro m2 hm2 st2 hst2
        unfold findMovie at hm
        rcases mem_updateFirst_of_find? hm hm2 with hmem | hmeq
        · exact hinv m2 hmem st2 hst2
        · subst hmeq
          rcases mem_updateFirst_of_find? hstid hst2 with hsmem | hseq
          · exact hinv movie (List.mem_of_find?_eq_some hm) st2 hsmem
          · subst hseq
            have hsinv : ShowtimeInv st :=
              hinv movie (List.mem_of_find?_eq_some hm) st
                (List.mem_of_find?_eq_some hstid)
            obtain ⟨h1, h2⟩ := hsinv
            unfold recomputeSeats
            constructor
            · simp only []
              exact le_max_left 0 _
            · simp only []
              exact max_le (by omega) (by omega)
  · intro db bookingId actorId role reason now r db2 hinv h
    unfold cancelBooking at h
    split at h
    · injection h with h1 h2
      rw [← h2]; exact hinv
    · split at h
      · injection h with h1 h2
        rw [← h2]; exact hinv
      · split at h
        · injection h with h1 h2
          rw [← h2]; exact hinv
        · split at h
          · injection h with h1 h2
            rw [← h2]; exact hinv
          · split at h
            · injection h with h1 h2
              rw [← h2]; exact hinv
            · simp only [] at h
              injection h with h1 h2
              rw [← h2]
              intro m2 hm2 st2 hst2
              rcases mem_updateFirst hm2 with hmem | ⟨y, hy, hmeq⟩
              · exact hinv m2 hmem st2 hst2
              · subst hmeq
                rcases mem_updateFirst hst2 with hsmem | ⟨z, hz, hseq⟩
                · exact hinv y hy st2 hsmem
                · subst hseq
                  have := hinv y hy z hz
                  simp only []
                  omega

def stW7 : Showtime :=
  { sid := 0, date := 0, time := "18:00", price := 10, totalSeats := 6,
    availableSeats := 6, isActive := true }

def dbW7 : DB :=
  { movies := [{ id := 1, showtimes := [stW7] }], bookings := [],
    nextBookingId := 0 }

def bookingW7 : Booking :=
  { id := 0
    user := 1
    movie := 1
    showtimeDate := 0
    showtimeTime := "18:00"
    seats := ["A1"]
    quantity := 1
    totalAmount := 10
    status := BStatus.pending
    paymentMethod := "cash"
    notes := none
    bookingCode := "AAAAAAAA"
    cancelledAt := none
    cancelledBy := none
    cancellationReason := none }

def dbW7out : DB :=
  { movies := [{ id := 1
                 showtimes := [{ sid := 0
                                 date := 0
                                 time := "18:00"
                                 price := 10
                                 totalSeats := 6
                                 availableSeats := 5
                                 isActive := true }] }]
    bookings := [bookingW7]
    nextBookingId := 1 }

/-- Witness for the amended C7 at concrete stores: each preserved bound,
checked on a concrete run of each operation. -/
theorem C7_witness :
    DBInv dbW7out ∧
    DBInv (updateShowtimeTotalSeats dbW7out 1 0 3).2 ∧
    DBLowerInv (cancelBooking dbW7out 0 1 "user" none 0).2 := by
  have T := C7_amended_counter_bounds
  refine ⟨T.1 dbW7 1 1 0 "18:00" ["A1"] 1 "cash" none "AAAAAAAA" bookingW7
      dbW7out (by decide) (by rfl), ?_, ?_⟩
  · exact T.2.1 dbW7out 1 0 3 (updateShowtimeTotalSeats dbW7out 1 0 3).1
      (updateShowtimeTotalSeats dbW7out 1 0 3).2
      (T.1 dbW7 1 1 0 "18:00" ["A1"] 1 "cash" none "AAAAAAAA" bookingW7
        dbW7out (by decide) (by rfl))
      (by decide) (by rfl)
  · exact T.2.2 dbW7out 0 1 "user" none 0
      (cancelBooking dbW7out 0 1 "user" none 0).1
      (cancelBooking dbW7out 0 1 "user" none 0).2
      (by decide) (by rfl)

theorem codeAlphabet_getD_mem :
    ∀ j, j < 36 → codeAlphabet.getD j 'A' ∈ codeAlphabet := by
  decide

theorem generateCode_valid (rand : Nat → Nat) :
    isValidCode (generateCode rand) := by
  constructor
  · show (String.mk ((List.range 8).map
      (fun i => codeAlphabet.getD (rand i % 36) 'A'))).length = 8
    simp [String.length]
  · intro ch hch
    have hch2 : ch ∈ (List.range 8).map
        (fun i => codeAlphabet.getD (rand i % 36) 'A') := hch
    obtain ⟨i, _, hi⟩ := List.mem_map.mp hch2
    rw [← hi]
    exact codeAlphabet_getD_mem _ (Nat.mod_lt _ (by decide))

theorem genUniqueCode_spec {rands : List (Nat → Nat)}
    {existingCodes : List String} {c : String}
    (h : genUniqueCode rands existingCodes = some c) :
    c ∉ existingCodes ∧ isValidCode c := by
  constructor
  · have hp := List.find?_some h
    intro hmem
    rw [Bool.not_eq_eq_eq_not, Bool.not_true] at hp
    have hmem2 : existingCodes.contains c = true := List.elem_iff.mpr hmem
    rw [hp] at hmem2
    cases hmem2
  · have hmem := List.mem_of_find?_eq_some h
    obtain ⟨rand, _, hr⟩ := List.mem_map.mp hmem
    rw [← hr]
    exact generateCode_valid rand

theorem saveAll_spec (randss : List (List (Nat → Nat))) :
    ∀ (codes0 codes : List String), saveAll randss codes0 = some codes →
    codes0.Nodup → (∀ c ∈ codes0, isValidCode c) →
    codes.Nodup ∧ codes.length = codes0.length + randss.length ∧
      ∀ c ∈ codes, isValidCode c := by
  induction randss with
  | nil =>
    intro codes0 codes h hnd hv
    unfold saveAll at h
    rw [Option.some_inj] at h
    subst h
    exact ⟨hnd, by simp, hv⟩
  | cons rs rest ih =>
    intro codes0 codes h hnd hv
    unfold saveAll at h
    cases hg : genUniqueCode rs codes0 with
    | none => rw [hg] at h; cases h
    | some c =>
      rw [hg] at h
      obtain ⟨hfresh, hvalid⟩ := genUniqueCode_spec hg
      have hnd2 : (codes0 ++ [c]).Nodup := by
        rw [List.nodup_append]
        refine ⟨hnd, List.nodup_singleton c, ?_⟩
        intro a ha hac
        rw [List.mem_singleton] at hac
        subst hac
        exact hfresh ha
      have hv2 : ∀ x ∈ codes0 ++ [c], isValidCode x := by
        intro x hx
        rcases List.mem_append.mp hx with hx | hx
        · exact hv x hx
        · rw [List.mem_singleton] at hx
          subst hx
          exact hvalid
      obtain ⟨h1, h2, h3⟩ := ih (codes0 ++ [c]) codes h hnd2 hv2
      refine ⟨h1, ?_, h3⟩
      simp only [List.length_append, List.length_singleton, List.length_cons,
        List.length_nil] at h2 ⊢
      omega

/-- Claim C9 (confirmed): every generated booking code has exactly 8
characters drawn from the 36-symbol alphabet A-Z0-9; the retry loop of the
pre-save hook accepts a candidate only when no stored booking already bears
it; and saving N bookings in sequence yields N pairwise-distinct valid
codes.  (Uniformity of the random draw is probabilistic and outside the
embedding.) -/
theorem C9_booking_code_generation :
    (∀ rand : Nat → Nat, isValidCode (generateCode rand)) ∧
    (∀ (rands : List (Nat → Nat)) (existingCodes : List String) (c : String),
      genUniqueCode rands existingCodes = some c →
      c ∉ existingCodes ∧ isValidCode c) ∧
    (∀ (randss : List (List (Nat → Nat))) (codes : List String),
      saveAll randss [] = some codes →
      codes.Nodup ∧ codes.length = randss.length ∧
        ∀ c ∈ codes, isValidCode c) := by
  refine ⟨generateCode_valid, fun _ _ _ h => genUniqueCode_spec h, ?_⟩
  intro randss codes h
  obtain ⟨h1, h2, h3⟩ := saveAll_spec randss [] codes h List.nodup_nil
    (by intro c hc; cases hc)
  exact ⟨h1, by simpa using h2, h3⟩

/-- Witness for C9 on concrete draws: the all-zero draw gives AAAAAAAA, a
colliding first draw is skipped in favour of the next one, and two saves
yield two distinct valid codes. -/
theorem C9_witness :
    isValidCode (generateCode (fun _ => 0)) ∧
    ((("AAAAAAAA" : String) ∉ (["BBBBBBBB"] : List String)) ∧
      isValidCode "AAAAAAAA") ∧
    ((["AAAAAAAA", "BBBBBBBB"] : List String).Nodup ∧
      (["AAAAAAAA", "BBBBBBBB"] : List String).length = 2 ∧
      ∀ c ∈ (["AAAAAAAA", "BBBBBBBB"] : List String), isValidCode c) :=
  ⟨C9_booking_code_generation.1 (fun _ => 0),
   C9_booking_code_generation.2.1 [fun _ => 0] ["BBBBBBBB"] "AAAAAAAA" (by rfl),
   C9_booking_code_generation.2.2 [[fun _ => 0], [fun _ => 0, fun _ => 1]]
     ["AAAAAAAA", "BBBBBBBB"] (by rfl)⟩

end TicketBooking
